import Mathlib

/-!
Shallow embedding of `owtf/error_handler.py` (class `ErrorHandler`).

Side effects (console printing, logging, process exit, error-DB calls, HTTP
POSTs) are made explicit as a trace of `Effect` values; control flow that in
Python ends in a raised exception or a process exit is captured by `Outcome`.
External collaborators that are not part of the observed source — the error
store (`db_error`), the configuration component, the sanitizer
(`OutputCleaner.anonymise_command`), the ambient exception/traceback state, and
the network (`requests.post`) — are modelled from the spec as explicit state or
function parameters.
-/

namespace Owtf

/-- Exceptions that `ErrorHandler` methods can raise past their own frame. -/
inductive Exn where
  | frameworkAbort (partialOutput : String)
  | pluginAbort (partialOutput : String)
  | attributeError
  | keyError
  | typeError
deriving DecidableEq

/-- How a call ends: a normal return, a raised exception, or a process exit
(`sys.exit`). -/
inductive Outcome (α : Type) where
  | normal (val : α)
  | raised (e : Exn)
  | exited (code : Int)
deriving DecidableEq

/-- Observable side effects, in the order they are performed. -/
inductive Effect where
  | logError (msg : String)
  | logInfo (msg : String)
  | cprint (msg : String)
  | sysExit (code : Int)
  | coreFinish
  | dbErrorAdd (message : String) (trace : Option String)
  | dbErrorUpdate (id : Nat) (body : String) (reported : Bool) (url : String)
  | httpPost (url : String) (headers : List (String × String)) (data : String)
deriving DecidableEq

/-- Modelled from the spec: one ErrorRecord of the append-only ErrorStore
(`message`/`trace` strings, `reported` flag defaulting to false, and the
report body/url set only by `mark_reported`). -/
structure ErrorRecord where
  message : String
  trace : Option String
  reported : Bool
  report_body : Option String
  report_url : Option String
deriving DecidableEq

/-- Modelled from the spec: the ErrorStore (`db_error` component, not in the
observed source), an append-only log of records keyed by an id. -/
structure ErrorStore where
  records : List (Nat × ErrorRecord)
  nextId : Nat
deriving DecidableEq

/-- Modelled from the spec: ErrorStore `append(message, trace) -> id`
(`db_error.add`), creating a fresh record with `reported = false`. -/
def storeAdd (st : ErrorStore) (message : String) (trace : Option String) :
    ErrorStore × Nat :=
  ({ records := st.records ++
        [(st.nextId,
          { message := message, trace := trace, reported := false,
            report_body := none, report_url := none })],
     nextId := st.nextId + 1 },
   st.nextId)

/-- Modelled from the spec: ErrorStore
`mark_reported` (`db_error.update_after_github_report(id, body, True, url)`),
which sets the record's `reported` flag, report body and report url. -/
def storeUpdateAfterGithubReport (st : ErrorStore) (id : Nat) (body : String)
    (reported : Bool) (url : String) : ErrorStore :=
  { st with
    records := st.records.map fun p =>
      if p.1 = id then
        (p.1, { p.2 with reported := reported, report_body := some body,
                         report_url := some url })
      else p }

/-- Modelled from the spec: the configuration component, a string lookup
supplying the issue-tracker token and submission URL. -/
structure Config where
  get_val : String → String

/-- The mutable fields of the `ErrorHandler` instance. `core`, `db_error` and
`config` start as `None` and are filled in by `init`; `Option` captures that. -/
structure ErrorHandler where
  command : String
  core : Option Unit
  dbError : Option ErrorStore
  config : Option Config

/-- `len_padding = 100`. -/
def len_padding : Nat := 100

/-- `self.padding = "\n%s\n\n" % ("_" * self.len_padding)`. -/
def padding : String :=
  "\n" ++ String.mk (List.replicate len_padding '_') ++ "\n\n"

/-- `self.sub_padding = "\n%s\n" % ("*" * self.len_padding)`. -/
def sub_padding : String :=
  "\n" ++ String.mk (List.replicate len_padding '*') ++ "\n"

/-- `set_command`: records the currently executing command string. -/
def set_command (h : ErrorHandler) (command : String) : ErrorHandler :=
  { h with command := command }

/-- `abort_framework(message)`: logs `"Aborted by Framework: %s" % message` at
error severity, then either exits with code -1 (when `core is None`) or calls
`core.finish()` and returns the formatted message. -/
def abort_framework (h : ErrorHandler) (message : String) :
    List Effect × Outcome String :=
  let message := "Aborted by Framework: " ++ message
  match h.core with
  | none => ([Effect.logError message, Effect.sysExit (-1)], Outcome.exited (-1))
  | some _ => ([Effect.logError message, Effect.coreFinish], Outcome.normal message)

/-- The notice string `user_abort` logs and builds:
`"\nThe %s was aborted by the user: Please check the report and plugin output files" % level`. -/
def userAbortNotice (level : String) : String :=
  "\nThe " ++ level ++
    " was aborted by the user: Please check the report and plugin output files"

/-- `user_abort(level, partial_output='')`: logs the notice; when
`level == 'Command'` the hard-coded `option = 'p'` selects the branch raising
`PluginAbortException(partial_output)` (the `option == 'e'` branch would raise
`FrameworkAbortException`); otherwise returns the notice string. -/
def user_abort (level : String) (partialOutput : String) :
    List Effect × Outcome String :=
  let message := userAbortNotice level
  let effs := [Effect.logInfo (userAbortNotice level)]
  if level == "Command" then
    let option := "p"
    if option == "e" then
      (effs, Outcome.raised (Exn.frameworkAbort partialOutput))
    else if option == "p" then
      (effs, Outcome.raised (Exn.pluginAbort partialOutput))
    else (effs, Outcome.normal message)
  else (effs, Outcome.normal message)

/-- `log_error(message, trace=None)`: tries `self.db_error.add(message, trace)`;
when `db_error` is still `None` the resulting `AttributeError` is caught and a
fallback notice is printed instead. -/
def log_error (h : ErrorHandler) (message : String) (trace : Option String) :
    ErrorHandler × List Effect × Outcome Unit :=
  match h.dbError with
  | some st =>
      ({ h with dbError := some (storeAdd st message trace).1 },
       [Effect.dbErrorAdd message trace], Outcome.normal ())
  | none =>
      (h, [Effect.cprint "ERROR: DB is not setup yet: cannot log errors to file!"],
       Outcome.normal ())

/-- The console banner `add_new_bug` assembles around the sanitized message and
sanitized trace. -/
def bugBanner (message errTrace : String) : String :=
  "OWTF BUG: Please report the sanitised information below to help make this better.Thank you"
    ++ "\nMessage: " ++ message ++ "\n"
    ++ "\nError Trace:"
    ++ "\n" ++ errTrace
    ++ "\n" ++ padding

/-- `add_new_bug(message)`: captures the ambient exception traceback
(`sys.exc_info` / `traceback.format_exception`, modelled as the parameter
`excTraceLines`), sanitizes the joined trace and the message with
`OutputCleaner.anonymise_command` (modelled as the parameter `sanitize`),
prints the banner and calls `log_error` with the sanitized pair. -/
def add_new_bug (sanitize : String → String) (excTraceLines : List String)
    (h : ErrorHandler) (message : String) :
    ErrorHandler × List Effect × Outcome Unit :=
  let err_trace := sanitize (String.intercalate "\n" excTraceLines)
  let message := sanitize message
  let output := bugBanner message err_trace
  let r := log_error h message (some err_trace)
  (r.1, Effect.cprint output :: r.2.1, r.2.2)

/-- `add(message, type='owtf')`: dispatches to `add_new_bug` for the internal
kind (spelled `'owtf'` in the source); any other kind prints the message
wrapped in padding and calls `log_error` with no trace. -/
def add (sanitize : String → String) (excTraceLines : List String)
    (h : ErrorHandler) (message : String) (type : String) :
    ErrorHandler × List Effect × Outcome Unit :=
  if type == "owtf" then
    add_new_bug sanitize excTraceLines h message
  else
    let output := padding ++ message ++ sub_padding
    let r := log_error h message none
    (r.1, Effect.cprint output :: r.2.1, r.2.2)

/-- Minimal model of `json.dumps` string escaping (backslash and quote). -/
def jsonEscape (s : String) : String :=
  (s.replace "\\" "\\\\").replace "\"" "\\\""

/-- A JSON string literal. -/
def jsonStr (s : String) : String := "\"" ++ jsonEscape s ++ "\""

/-- A JSON string literal or `null` (for a `None` title). -/
def jsonOptStr : Option String → String
  | none => "null"
  | some s => jsonStr s

/-- `json.dumps({'title': title, 'body': body})`. -/
def issueData (title : Option String) (body : String) : String :=
  "\x7b" ++ jsonStr "title" ++ ": " ++ jsonOptStr title ++ ", "
    ++ jsonStr "body" ++ ": " ++ jsonStr body ++ "\x7d"

/-- Modelled from the spec: the tracker's HTTP response — a status code and the
parsed JSON body (as key/value pairs; `request.json()`). -/
structure TrackerResponse where
  status : Nat
  json : List (String × String)
deriving DecidableEq

/-- The network, modelled from the spec as a function from the POST's url,
headers and data to the tracker's response (`requests.post`). -/
def Net : Type := String → List (String × String) → String → TrackerResponse

/-- What `add_github_issue` returns: `False` when `id` or `username` is
missing, otherwise the tracker's parsed JSON response. -/
inductive IssueResult where
  | noReport
  | response (json : List (String × String))
deriving DecidableEq

/-- `body += "\n\nSubmitted By - @"; body += username`. -/
def submittedBody (body username : String) : String :=
  body ++ "\n\nSubmitted By - @" ++ username

/-- The headers `add_github_issue` sends: content type and
`"Authorization": "token " + config.get_val("GITHUB_BUG_REPORTER_TOKEN")`. -/
def issueHeaders (cfg : Config) : List (String × String) :=
  [("Content-Type", "application/json"),
   ("Authorization", "token " ++ cfg.get_val "GITHUB_BUG_REPORTER_TOKEN")]

/-- The POST target: `config.get_val("GITHUB_API_ISSUES_URL")`. -/
def issueUrl (cfg : Config) : String := cfg.get_val "GITHUB_API_ISSUES_URL"

/-- The tracker's response to the POST `add_github_issue` performs for the
given inputs. -/
def trackerResponseFor (net : Net) (cfg : Config) (username : String)
    (title : Option String) (body : String) : TrackerResponse :=
  net (issueUrl cfg) (issueHeaders cfg)
    (issueData title (submittedBody body username))

/-- `add_github_issue(username=None, title=None, body=None, id=None)`: returns
`False` when `id` or `username` is `None`; otherwise appends the attribution
line to `body`, serializes the payload, POSTs it with the configured token and
URL, and on a 201 response calls
`db_error.update_after_github_report(id, body, True, response["html_url"])`;
the parsed response is returned in both the 201 and the non-201 case. -/
def add_github_issue (net : Net) (h : ErrorHandler) (username : Option String)
    (title : Option String) (body : Option String) (id : Option Nat) :
    ErrorHandler × List Effect × Outcome IssueResult :=
  match id, username with
  | some i, some u =>
    match body with
    | none => (h, [], Outcome.raised Exn.typeError)
    | some b =>
      let b := submittedBody b u
      let data := issueData title b
      match h.config with
      | none => (h, [], Outcome.raised Exn.attributeError)
      | some cfg =>
        let headers := issueHeaders cfg
        let url := issueUrl cfg
        let resp := net url headers data
        if resp.status = 201 then
          match h.dbError with
          | none => (h, [Effect.httpPost url headers data],
                     Outcome.raised Exn.attributeError)
          | some st =>
            match resp.json.lookup "html_url" with
            | none => (h, [Effect.httpPost url headers data],
                       Outcome.raised Exn.keyError)
            | some link =>
              let st2 := storeUpdateAfterGithubReport st i b true link
              ({ h with dbError := some st2 },
               [Effect.httpPost url headers data,
                Effect.dbErrorUpdate i b true link],
               Outcome.normal (IssueResult.response resp.json))
        else
          (h, [Effect.httpPost url headers data],
           Outcome.normal (IssueResult.response resp.json))
  | _, _ => (h, [], Outcome.normal IssueResult.noReport)

/-! Concrete fixtures used to instantiate the theorems below. -/

/-- A handler before `init`: no core, no error DB, no config. -/
def emptyHandler : ErrorHandler :=
  { command := "", core := none, dbError := none, config := none }

/-- An empty error store. -/
def emptyStore : ErrorStore := { records := [], nextId := 0 }

/-- A configuration answering every lookup with a fixed token string. -/
def wConfig : Config := { get_val := fun _ => "X" }

/-- A fully initialized handler. -/
def readyHandler : ErrorHandler :=
  { command := "", core := some (), dbError := some emptyStore,
    config := some wConfig }

/-- A network whose tracker always answers 201 with an `html_url`. -/
def net201 : Net :=
  fun _ _ _ => { status := 201, json := [("html_url", "https://api.test/1")] }

/-- A network whose tracker always answers 404. -/
def net404 : Net :=
  fun _ _ _ => { status := 404, json := [("message", "Not Found")] }

/-- C3: with no lifecycle owner (`core = None`), `abort_framework` first logs
the message at error severity, then exits the process with status -1, and
never calls the ErrorStore on this path. -/
theorem abort_framework_no_core (h : ErrorHandler) (msg : String)
    (hc : h.core = none) :
    abort_framework h msg =
      ([Effect.logError ("Aborted by Framework: " ++ msg), Effect.sysExit (-1)],
       Outcome.exited (-1)) ∧
    ∀ m tr, Effect.dbErrorAdd m tr ∉ (abort_framework h msg).1 := by
  refine ⟨?_, ?_⟩
  · simp [abort_framework, hc]
  · intro m tr
    simp [abort_framework, hc]

/-- Witness for C3 at a concrete handler and message. -/
theorem abort_framework_no_core_witness :
    abort_framework emptyHandler "boom" =
      ([Effect.logError ("Aborted by Framework: " ++ "boom"),
        Effect.sysExit (-1)], Outcome.exited (-1)) ∧
    ∀ m tr, Effect.dbErrorAdd m tr ∉ (abort_framework emptyHandler "boom").1 :=
  abort_framework_no_core emptyHandler "boom" rfl

/-- C4: with a lifecycle owner present, `abort_framework` logs, calls
`core.finish()` exactly once, returns a string containing the original
message, and does not exit the process. -/
theorem abort_framework_with_core (h : ErrorHandler) (msg : String)
    (hc : h.core = some ()) :
    (abort_framework h msg).1 =
      [Effect.logError ("Aborted by Framework: " ++ msg), Effect.coreFinish] ∧
    List.count Effect.coreFinish (abort_framework h msg).1 = 1 ∧
    (∃ pre, (abort_framework h msg).2 = Outcome.normal (pre ++ msg)) ∧
    ∀ code, (abort_framework h msg).2 ≠ Outcome.exited code := by
  refine ⟨?_, ?_, ⟨"Aborted by Framework: ", ?_⟩, ?_⟩ <;>
    simp [abort_framework, hc]

/-- Witness for C4 at a concrete handler and message. -/
theorem abort_framework_with_core_witness :
    (abort_framework readyHandler "boom").1 =
      [Effect.logError ("Aborted by Framework: " ++ "boom"),
       Effect.coreFinish] ∧
    List.count Effect.coreFinish (abort_framework readyHandler "boom").1 = 1 ∧
    (∃ pre, (abort_framework readyHandler "boom").2 =
       Outcome.normal (pre ++ "boom")) ∧
    ∀ code, (abort_framework readyHandler "boom").2 ≠ Outcome.exited code :=
  abort_framework_with_core readyHandler "boom" rfl

/-- C6: `user_abort` on the `'Command'` level raises
`PluginAbortException` carrying exactly the given partial output. -/
theorem user_abort_command_partial_output (p : String) :
    (user_abort "Command" p).2 = Outcome.raised (Exn.pluginAbort p) := rfl

/-- C7 counterexample: on the `'Command'` level, `user_abort` raises before
reaching its `return`, so it does not return the notice string. -/
theorem user_abort_command_no_return_cex :
    (user_abort "Command" "").2 ≠
      Outcome.normal (userAbortNotice "Command") := by
  decide

/-- C7 amended: for every level other than `'Command'`, `user_abort` returns
the notice string naming the level; on `'Command'` the notice is only logged,
and the call ends in a raised abort signal instead of a return. -/
theorem user_abort_returns_notice_off_command (level p : String)
    (hl : level ≠ "Command") :
    (user_abort level p).2 = Outcome.normal (userAbortNotice level) := by
  have hb : (level == "Command") = false := beq_eq_false_iff_ne.mpr hl
  simp [user_abort, hb]

/-- Witness for the amended C7 at the `'Plugin'` level. -/
theorem user_abort_returns_notice_off_command_witness :
    (user_abort "Plugin" "part").2 =
      Outcome.normal (userAbortNotice "Plugin") :=
  user_abort_returns_notice_off_command "Plugin" "part" (by decide)

/-- C8: on the `'Command'` level the hard-coded option always selects the
skip-to-next-plugin branch (`PluginAbortException` with the partial output);
the `FrameworkAbortException` branch is unreachable on every execution. -/
theorem user_abort_skip_branch_only (level p q : String) :
    (user_abort "Command" p).2 = Outcome.raised (Exn.pluginAbort p) ∧
    (user_abort level p).2 ≠ Outcome.raised (Exn.frameworkAbort q) := by
  refine ⟨rfl, ?_⟩
  by_cases hl : (level == "Command") = true <;> simp [user_abort, hl]

/-- C1: every write `add_new_bug` performs — the console banner and the
message/trace handed to `log_error` and appended to the store — carries the
sanitizer's output applied to the raw message and raw joined trace, and the
sanitization happens before the first write. -/
theorem add_new_bug_sanitizes (sanitize : String → String)
    (excTraceLines : List String) (h : ErrorHandler) (message : String) :
    (add_new_bug sanitize excTraceLines h message).2.1.head? =
      some (Effect.cprint (bugBanner (sanitize message)
        (sanitize (String.intercalate "\n" excTraceLines)))) ∧
    (∀ st, h.dbError = some st →
      (add_new_bug sanitize excTraceLines h message).2.1 =
        [Effect.cprint (bugBanner (sanitize message)
           (sanitize (String.intercalate "\n" excTraceLines))),
         Effect.dbErrorAdd (sanitize message)
           (some (sanitize (String.intercalate "\n" excTraceLines)))] ∧
      (add_new_bug sanitize excTraceLines h message).1.dbError =
        some (storeAdd st (sanitize message)
          (some (sanitize (String.intercalate "\n" excTraceLines)))).1) ∧
    (h.dbError = none →
      (add_new_bug sanitize excTraceLines h message).2.1 =
        [Effect.cprint (bugBanner (sanitize message)
           (sanitize (String.intercalate "\n" excTraceLines))),
         Effect.cprint "ERROR: DB is not setup yet: cannot log errors to file!"]) := by
  refine ⟨?_, ?_, ?_⟩
  · cases hdb : h.dbError <;> simp [add_new_bug, log_error, hdb]
  · intro st hdb
    simp [add_new_bug, log_error, hdb]
  · intro hdb
    simp [add_new_bug, log_error, hdb]

/-- Witness for C1: a concrete sanitizer, trace and message against an
initialized store. -/
theorem add_new_bug_sanitizes_witness :
    (add_new_bug (fun _ => "[CLEAN]") ["line1", "line2"] readyHandler
        "secret").2.1 =
      [Effect.cprint (bugBanner ((fun _ => "[CLEAN]") "secret")
         ((fun _ => "[CLEAN]") (String.intercalate "\n" ["line1", "line2"]))),
       Effect.dbErrorAdd ((fun _ => "[CLEAN]") "secret")
         (some ((fun _ => "[CLEAN]")
            (String.intercalate "\n" ["line1", "line2"])))] ∧
    (add_new_bug (fun _ => "[CLEAN]") ["line1", "line2"] readyHandler
        "secret").1.dbError =
      some (storeAdd emptyStore ((fun _ => "[CLEAN]") "secret")
        (some ((fun _ => "[CLEAN]")
           (String.intercalate "\n" ["line1", "line2"])))).1 :=
  (add_new_bug_sanitizes (fun _ => "[CLEAN]") ["line1", "line2"] readyHandler
    "secret").2.1 emptyStore rfl

/-- C9: `add` routes the internal kind (spelled `'owtf'` in the source, the
default) to `add_new_bug`; every other kind wraps the message in visual
padding, prints it, and calls `log_error` with no trace. -/
theorem add_dispatch (sanitize : String → String) (excTraceLines : List String)
    (h : ErrorHandler) (message k : String) :
    add sanitize excTraceLines h message "owtf" =
      add_new_bug sanitize excTraceLines h message ∧
    (k ≠ "owtf" →
      add sanitize excTraceLines h message k =
        ((log_error h message none).1,
         Effect.cprint (padding ++ message ++ sub_padding)
           :: (log_error h message none).2.1,
         (log_error h message none).2.2)) := by
  refine ⟨rfl, ?_⟩
  intro hk
  have hb : (k == "owtf") = false := beq_eq_false_iff_ne.mpr hk
  simp [add, hb]

/-- Witness for C9 at the kind `"user"`. -/
theorem add_dispatch_witness :
    add (fun s => s) [] readyHandler "note" "owtf" =
      add_new_bug (fun s => s) [] readyHandler "note" ∧
    add (fun s => s) [] readyHandler "note" "user" =
      ((log_error readyHandler "note" none).1,
       Effect.cprint (padding ++ "note" ++ sub_padding)
         :: (log_error readyHandler "note" none).2.1,
       (log_error readyHandler "note" none).2.2) :=
  ⟨(add_dispatch (fun s => s) [] readyHandler "note" "user").1,
   (add_dispatch (fun s => s) [] readyHandler "note" "user").2 (by decide)⟩

/-- C10: `add_github_issue` with a missing `id` or a missing `username`
returns `False` at once: no HTTP call, no store mutation, handler unchanged. -/
theorem add_github_issue_missing (net : Net) (h : ErrorHandler)
    (username title body : Option String) (id : Option Nat)
    (hmiss : id = none ∨ username = none) :
    add_github_issue net h username title body id =
      (h, [], Outcome.normal IssueResult.noReport) := by
  rcases hmiss with hi | hu
  · subst hi; cases username <;> rfl
  · subst hu; cases id <;> rfl

/-- Witness for C10 with a missing username. -/
theorem add_github_issue_missing_witness :
    add_github_issue net404 readyHandler none (some "t") (some "b") (some 0) =
      (readyHandler, [], Outcome.normal IssueResult.noReport) :=
  add_github_issue_missing net404 readyHandler none (some "t") (some "b")
    (some 0) (Or.inr rfl)

/-- Unfolding lemma: with a configured handler and all arguments present,
`add_github_issue` POSTs once and branches on the tracker's status. -/
theorem add_github_issue_eq (net : Net) (h : ErrorHandler) (u : String)
    (title : Option String) (b : String) (i : Nat) (cfg : Config)
    (hc : h.config = some cfg) :
    add_github_issue net h (some u) title (some b) (some i) =
      (let resp := trackerResponseFor net cfg u title b
       let post := Effect.httpPost (issueUrl cfg) (issueHeaders cfg)
         (issueData title (submittedBody b u))
       if resp.status = 201 then
         match h.dbError with
         | none => (h, [post], Outcome.raised Exn.attributeError)
         | some st =>
           match resp.json.lookup "html_url" with
           | none => (h, [post], Outcome.raised Exn.keyError)
           | some link =>
             ({ h with dbError := some (storeUpdateAfterGithubReport st i
                  (submittedBody b u) true link) },
              [post, Effect.dbErrorUpdate i (submittedBody b u) true link],
              Outcome.normal (IssueResult.response resp.json))
       else (h, [post], Outcome.normal (IssueResult.response resp.json))) := by
  simp only [add_github_issue, hc, trackerResponseFor]

/-- C2: with `record_id` and `username` present, the store's
`update_after_github_report` runs only when the tracker answers 201 — any
non-201 response, whatever its body, leaves the handler's store untouched and
is returned as data, not raised — and on a 201 response whose body carries
`html_url` (the tracker's success contract) the update runs with exactly that
returned url. -/
theorem add_github_issue_marks_reported_iff_201 (net : Net) (h : ErrorHandler)
    (cfg : Config) (st : ErrorStore) (u ti b : String) (i : Nat)
    (hc : h.config = some cfg) (hd : h.dbError = some st) :
    (∀ link, Effect.dbErrorUpdate i (submittedBody b u) true link ∈
        (add_github_issue net h (some u) (some ti) (some b) (some i)).2.1 →
      (trackerResponseFor net cfg u (some ti) b).status = 201) ∧
    ((trackerResponseFor net cfg u (some ti) b).status ≠ 201 →
      add_github_issue net h (some u) (some ti) (some b) (some i) =
        (h, [Effect.httpPost (issueUrl cfg) (issueHeaders cfg)
               (issueData (some ti) (submittedBody b u))],
         Outcome.normal (IssueResult.response
           (trackerResponseFor net cfg u (some ti) b).json))) ∧
    (∀ link,
      (trackerResponseFor net cfg u (some ti) b).json.lookup "html_url" =
        some link →
      (trackerResponseFor net cfg u (some ti) b).status = 201 →
      add_github_issue net h (some u) (some ti) (some b) (some i) =
        ({ h with dbError := some (storeUpdateAfterGithubReport st i
             (submittedBody b u) true link) },
         [Effect.httpPost (issueUrl cfg) (issueHeaders cfg)
            (issueData (some ti) (submittedBody b u)),
          Effect.dbErrorUpdate i (submittedBody b u) true link],
         Outcome.normal (IssueResult.response
           (trackerResponseFor net cfg u (some ti) b).json))) := by
  have he := add_github_issue_eq net h u (some ti) b i cfg hc
  by_cases hstat : (trackerResponseFor net cfg u (some ti) b).status = 201
  · cases hl : (trackerResponseFor net cfg u (some ti) b).json.lookup "html_url"
    · rw [he]
      simp [hstat, hd, hl]
    · rw [he]
      simp [hstat, hd, hl]
  · rw [he]
    simp [hstat, hd]

/-- Witness for C2: the 201 tracker triggers `update_after_github_report`
with the returned url. -/
theorem add_github_issue_marks_reported_iff_201_witness :
    Effect.dbErrorUpdate 0 (submittedBody "b" "alice") true
        "https://api.test/1" ∈
      (add_github_issue net201 readyHandler (some "alice") (some "t")
        (some "b") (some 0)).2.1 := by
  have h201 := (add_github_issue_marks_reported_iff_201 net201 readyHandler
    wConfig emptyStore "alice" "t" "b" 0 rfl rfl).2.2 "https://api.test/1"
    (by decide) rfl
  rw [h201]
  simp

/-- C5: the reporting pipeline degrades instead of raising — `log_error`
with no store returns normally after a console fallback, and a non-201
tracker response is returned as data by `add_github_issue`. -/
theorem reporting_degrades_not_raises (h h2 : ErrorHandler) (msg : String)
    (tr : Option String) (cfg : Config) (u ti b : String) (i : Nat) (net : Net)
    (hd0 : h.dbError = none) (hc : h2.config = some cfg)
    (hstat : (trackerResponseFor net cfg u (some ti) b).status ≠ 201) :
    (log_error h msg tr).2.2 = Outcome.normal () ∧
    (log_error h msg tr).2.1 =
      [Effect.cprint "ERROR: DB is not setup yet: cannot log errors to file!"] ∧
    (add_github_issue net h2 (some u) (some ti) (some b) (some i)).2.2 =
      Outcome.normal (IssueResult.response
        (trackerResponseFor net cfg u (some ti) b).json) := by
  refine ⟨?_, ?_, ?_⟩
  · simp [log_error, hd0]
  · simp [log_error, hd0]
  · rw [add_github_issue_eq net h2 u (some ti) b i cfg hc]
    simp [hstat]

/-- Witness for C5 at a concrete uninitialized handler and a 404 tracker. -/
theorem reporting_degrades_not_raises_witness :
    (log_error emptyHandler "m" none).2.2 = Outcome.normal () ∧
    (log_error emptyHandler "m" none).2.1 =
      [Effect.cprint "ERROR: DB is not setup yet: cannot log errors to file!"] ∧
    (add_github_issue net404 readyHandler (some "alice") (some "t") (some "b")
        (some 0)).2.2 =
      Outcome.normal (IssueResult.response
        (trackerResponseFor net404 wConfig "alice" (some "t") "b").json) :=
  reporting_degrades_not_raises emptyHandler readyHandler "m" none wConfig
    "alice" "t" "b" 0 net404 rfl rfl (by decide)

end Owtf
